import Mathlib

/-!
Verification of the athletes/achievements record-keeping service
(src/4lab/main.py): a shallow embedding of the two database tables,
the request validation performed by the pydantic models, and the seven
HTTP handlers, followed by theorems settling the specification claims.

The database is modelled as two lists of rows.  Each handler becomes a
pure function from a request and a database state to a result paired
with the successor state; `Except.error e` models an HTTPException
carrying status `e.status`, and a pydantic body-validation failure is
modelled as `ApiError.validationError` (a 422 response produced before
the handler body runs).  SQLite assigns to a freshly inserted row the
primary key `max(existing ids) + 1` (starting from 1 on an empty
table); `nextId` reproduces that.
-/

namespace AthleteService

/-- A calendar date as carried by a request body, before pydantic has
checked it: three integer components.  `PyDate.valid` is the Gregorian
calendar check that `datetime.date` performs (years 1–9999). -/
structure PyDate where
  year : Nat
  month : Nat
  day : Nat
deriving DecidableEq, Repr

def isLeapYear (y : Nat) : Bool :=
  (y % 4 == 0 && y % 100 != 0) || y % 400 == 0

def daysInMonth (y m : Nat) : Nat :=
  if m == 2 then (if isLeapYear y then 29 else 28)
  else if m == 4 || m == 6 || m == 9 || m == 11 then 30
  else 31

def PyDate.valid (d : PyDate) : Bool :=
  decide (1 ≤ d.year ∧ d.year ≤ 9999 ∧ 1 ≤ d.month ∧ d.month ≤ 12 ∧
    1 ≤ d.day ∧ d.day ≤ daysInMonth d.year d.month)

/-- A row of the `athletes` table (model `DBAthlete`). -/
structure Athlete where
  id : Int
  name : String
  country : String
deriving DecidableEq, Repr

/-- A row of the `achievements` table (model `DBAchievement`). -/
structure Achievement where
  id : Int
  sport : String
  result : String
  date : PyDate
  athlete_id : Int
deriving DecidableEq, Repr

/-- The persistent state: the two tables, in insertion order. -/
structure DBState where
  athletes : List Athlete
  achievements : List Achievement
deriving DecidableEq, Repr

/-- The state right after `Base.metadata.create_all` on a fresh file. -/
def emptyState : DBState := ⟨[], []⟩

/-- The two error kinds the service produces. -/
inductive ApiError where
  | notFound
  | validationError
deriving DecidableEq, Repr

/-- HTTP status code attached to each error kind. -/
def ApiError.status : ApiError → Nat
  | .notFound => 404
  | .validationError => 422

/-- Request body of POST /athletes (pydantic `AthleteCreate`). -/
structure AthleteCreate where
  name : String
  country : String
deriving DecidableEq, Repr

/-- Request body of POST /achievements (pydantic `AchievementCreate`). -/
structure AchievementCreate where
  sport : String
  result : String
  date : PyDate
  athlete_id : Int
deriving DecidableEq, Repr

/-- `Field(..., min_length=1, max_length=100)` on a string field. -/
def validStr (s : String) : Bool :=
  decide (1 ≤ s.length ∧ s.length ≤ 100)

/-- Pydantic validation of an `AthleteCreate` body. -/
def AthleteCreate.valid (b : AthleteCreate) : Bool :=
  validStr b.name && validStr b.country

/-- Pydantic validation of an `AchievementCreate` body. -/
def AchievementCreate.valid (b : AchievementCreate) : Bool :=
  validStr b.sport && validStr b.result && b.date.valid

/-- SQLite rowid assignment: one more than the largest existing id
(1 on an empty table, since all assigned ids are positive). -/
def nextId (ids : List Int) : Int := ids.foldl max 0 + 1

def DBState.nextAthleteId (st : DBState) : Int :=
  nextId (st.athletes.map Athlete.id)

def DBState.nextAchievementId (st : DBState) : Int :=
  nextId (st.achievements.map Achievement.id)

/-- `db.query(DBAthlete).filter(DBAthlete.id == athlete_id).first()`. -/
def findAthlete (st : DBState) (aid : Int) : Option Athlete :=
  st.athletes.find? (fun a => a.id == aid)

/-- `db.query(DBAchievement).filter(DBAchievement.id == achievement_id).first()`. -/
def findAchievement (st : DBState) (cid : Int) : Option Achievement :=
  st.achievements.find? (fun c => c.id == cid)

/-- GET /athletes: `db.query(DBAthlete).all()`. -/
def get_athletes (st : DBState) : Except ApiError (List Athlete) × DBState :=
  (Except.ok st.athletes, st)

/-- POST /athletes (`create_athlete`): pydantic validates the body
(422 on failure, before the handler runs), then the handler inserts a
row and returns it with its freshly assigned id. -/
def create_athlete (body : AthleteCreate) (st : DBState) :
    Except ApiError Athlete × DBState :=
  if body.valid then
    let a : Athlete := ⟨st.nextAthleteId, body.name, body.country⟩
    (Except.ok a, ⟨st.athletes ++ [a], st.achievements⟩)
  else
    (Except.error ApiError.validationError, st)

/-- GET /athletes/{athlete_id}/achievements (`get_athlete_achievements`):
404 via `get_athlete_or_404` if the athlete is absent, otherwise the
`athlete.achievements` relationship, i.e. the achievements whose
`athlete_id` equals the athlete's id. -/
def get_athlete_achievements (aid : Int) (st : DBState) :
    Except ApiError (List Achievement) × DBState :=
  match findAthlete st aid with
  | none => (Except.error ApiError.notFound, st)
  | some a =>
    (Except.ok (st.achievements.filter (fun c => c.athlete_id == a.id)), st)

/-- DELETE /athletes/{athlete_id} (`delete_athlete`): 404 if absent;
otherwise `db.delete(athlete)` removes the row and, through the
`cascade="all, delete"` relationship, every achievement whose
`athlete_id` equals the athlete's id. -/
def delete_athlete (aid : Int) (st : DBState) :
    Except ApiError Unit × DBState :=
  match findAthlete st aid with
  | none => (Except.error ApiError.notFound, st)
  | some a =>
    (Except.ok (),
      ⟨st.athletes.filter (fun x => x.id != a.id),
       st.achievements.filter (fun c => c.athlete_id != a.id)⟩)

/-- GET /achievements (`get_achievements`): the whole table, filtered
by `athlete_id` when the query parameter is present.  Never fails. -/
def get_achievements (filterAid : Option Int) (st : DBState) :
    Except ApiError (List Achievement) × DBState :=
  match filterAid with
  | none => (Except.ok st.achievements, st)
  | some aid =>
    (Except.ok (st.achievements.filter (fun c => c.athlete_id == aid)), st)

/-- POST /achievements (`create_achievement`): pydantic validates the
body first (422, before the handler runs); the handler then checks the
referenced athlete via `get_athlete_or_404` (404 if absent) and
inserts the row, returning it with its freshly assigned id. -/
def create_achievement (body : AchievementCreate) (st : DBState) :
    Except ApiError Achievement × DBState :=
  if body.valid then
    match findAthlete st body.athlete_id with
    | none => (Except.error ApiError.notFound, st)
    | some _ =>
      let c : Achievement :=
        ⟨st.nextAchievementId, body.sport, body.result, body.date, body.athlete_id⟩
      (Except.ok c, ⟨st.athletes, st.achievements ++ [c]⟩)
  else
    (Except.error ApiError.validationError, st)

/-- DELETE /achievements/{achievement_id} (`delete_achievement`):
404 if absent, otherwise removes the row. -/
def delete_achievement (cid : Int) (st : DBState) :
    Except ApiError Unit × DBState :=
  match findAchievement st cid with
  | none => (Except.error ApiError.notFound, st)
  | some c =>
    (Except.ok (), ⟨st.athletes, st.achievements.filter (fun x => x.id != c.id)⟩)

/-- Referential integrity: every achievement's `athlete_id` is the id
of some athlete present in the athletes table. -/
def refIntact (st : DBState) : Bool :=
  st.achievements.all (fun c => st.athletes.any (fun a => a.id == c.athlete_id))

/-! ### Helper lemmas -/

theorem foldl_max_bound (l : List Int) (init : Int) :
    init ≤ l.foldl max init ∧ ∀ x ∈ l, x ≤ l.foldl max init := by
  induction l generalizing init with
  | nil => simp
  | cons h t ih =>
    have h1 := ih (max init h)
    refine ⟨le_trans (le_max_left _ _) h1.1, ?_⟩
    intro x hx
    rcases List.mem_cons.mp hx with rfl | hx
    · exact le_trans (le_max_right _ _) h1.1
    · exact h1.2 x hx

theorem mem_lt_nextId (ids : List Int) (x : Int) (hx : x ∈ ids) :
    x < nextId ids :=
  lt_of_le_of_lt ((foldl_max_bound ids 0).2 x hx) (by simp [nextId])

theorem athlete_id_lt_nextAthleteId (st : DBState) (a : Athlete)
    (ha : a ∈ st.athletes) : a.id < st.nextAthleteId :=
  mem_lt_nextId _ a.id (List.mem_map_of_mem Athlete.id ha)

theorem achievement_id_lt_nextAchievementId (st : DBState) (c : Achievement)
    (hc : c ∈ st.achievements) : c.id < st.nextAchievementId :=
  mem_lt_nextId _ c.id (List.mem_map_of_mem Achievement.id hc)

theorem findAthlete_eq_none (st : DBState) (aid : Int)
    (h : ∀ a ∈ st.athletes, a.id ≠ aid) : findAthlete st aid = none := by
  unfold findAthlete
  rw [List.find?_eq_none]
  intro a ha
  simp [h a ha]

theorem findAthlete_id (st : DBState) (aid : Int) (a : Athlete)
    (h : findAthlete st aid = some a) : a.id = aid := by
  unfold findAthlete at h
  have := List.find?_some h
  simpa using this

theorem findAthlete_mem (st : DBState) (aid : Int) (a : Athlete)
    (h : findAthlete st aid = some a) : a ∈ st.athletes := by
  unfold findAthlete at h
  exact List.mem_of_find?_eq_some h

theorem findAthlete_isSome (st : DBState) (aid : Int) (a : Athlete)
    (ha : a ∈ st.athletes) (hid : a.id = aid) :
    ∃ b, findAthlete st aid = some b := by
  cases hf : findAthlete st aid with
  | none =>
    exfalso
    unfold findAthlete at hf
    have := List.find?_eq_none.mp hf a ha
    simp [hid] at this
  | some b => exact ⟨b, rfl⟩

theorem findAchievement_eq_none (st : DBState) (cid : Int)
    (h : ∀ c ∈ st.achievements, c.id ≠ cid) : findAchievement st cid = none := by
  unfold findAchievement
  rw [List.find?_eq_none]
  intro c hc
  simp [h c hc]

theorem findAchievement_id (st : DBState) (cid : Int) (c : Achievement)
    (h : findAchievement st cid = some c) : c.id = cid := by
  unfold findAchievement at h
  have := List.find?_some h
  simpa using this

theorem findAchievement_isSome (st : DBState) (cid : Int) (c : Achievement)
    (hc : c ∈ st.achievements) (hid : c.id = cid) :
    ∃ b, findAchievement st cid = some b := by
  cases hf : findAchievement st cid with
  | none =>
    exfalso
    unfold findAchievement at hf
    have := List.find?_eq_none.mp hf c hc
    simp [hid] at this
  | some b => exact ⟨b, rfl⟩

theorem get_athlete_achievements_state (aid : Int) (st : DBState) :
    (get_athlete_achievements aid st).2 = st := by
  unfold get_athlete_achievements
  cases findAthlete st aid <;> rfl

theorem get_achievements_state (o : Option Int) (st : DBState) :
    (get_achievements o st).2 = st := by
  cases o <;> rfl

theorem refIntact_iff (st : DBState) :
    refIntact st = true ↔
      ∀ c ∈ st.achievements, ∃ a ∈ st.athletes, a.id = c.athlete_id := by
  simp [refIntact, List.all_eq_true, List.any_eq_true]

theorem athleteCreate_valid_iff (b : AthleteCreate) :
    b.valid = true ↔
      (1 ≤ b.name.length ∧ b.name.length ≤ 100 ∧
       1 ≤ b.country.length ∧ b.country.length ≤ 100) := by
  simp [AthleteCreate.valid, validStr]
  omega

theorem achievementCreate_valid_iff (b : AchievementCreate) :
    b.valid = true ↔
      (1 ≤ b.sport.length ∧ b.sport.length ≤ 100 ∧
       1 ≤ b.result.length ∧ b.result.length ≤ 100 ∧
       1 ≤ b.date.year ∧ b.date.year ≤ 9999 ∧
       1 ≤ b.date.month ∧ b.date.month ≤ 12 ∧
       1 ≤ b.date.day ∧ b.date.day ≤ daysInMonth b.date.year b.date.month) := by
  simp [AchievementCreate.valid, validStr, PyDate.valid]
  omega

theorem filter_ne_id_length (l : List Achievement) (cid : Int)
    (hp : l.Pairwise (fun x y => x.id ≠ y.id)) (c : Achievement)
    (hc : c ∈ l) (hid : c.id = cid) :
    (l.filter (fun x => x.id != cid)).length + 1 = l.length := by
  induction l with
  | nil => cases hc
  | cons h t ih =>
    have hp' := List.pairwise_cons.mp hp
    rcases List.mem_cons.mp hc with rfl | hct
    · have hdrop : (c.id != cid) = false := by simp [hid]
      have hkeep : t.filter (fun x => x.id != cid) = t := by
        rw [List.filter_eq_self]
        intro x hx
        have := hp'.1 x hx
        rw [hid] at this
        simp [Ne.symm this]
      simp [List.filter_cons, hdrop, hkeep]
    · have hne : (h.id != cid) = true := by
        have := hp'.1 c hct
        rw [hid] at this
        simp [this]
      simp [List.filter_cons, hne]
      exact ih hp'.2 hct

/-! ### Claim theorems -/

/-- C9: the three read operations — list all athletes, list an
athlete's achievements, and list achievements with or without the
athlete_id filter — leave both tables unchanged, including when
listing an athlete's achievements fails with NotFound. -/
theorem reads_leave_state_unchanged (st : DBState) (aid : Int) (o : Option Int) :
    (get_athletes st).2 = st ∧
    (get_athlete_achievements aid st).2 = st ∧
    (get_achievements o st).2 = st := by
  refine ⟨rfl, ?_, ?_⟩
  · unfold get_athlete_achievements
    cases findAthlete st aid <;> rfl
  · cases o <;> rfl

/-- C5: listing achievements with an athlete_id filter returns exactly
the achievements whose athlete_id equals the given value and no
others; listing without a filter returns every achievement. -/
theorem get_achievements_filter_spec (st : DBState) (aid : Int) :
    (∃ l, (get_achievements (some aid) st).1 = Except.ok l ∧
      ∀ c : Achievement, c ∈ l ↔ c ∈ st.achievements ∧ c.athlete_id = aid) ∧
    (get_achievements none st).1 = Except.ok st.achievements := by
  refine ⟨⟨_, rfl, ?_⟩, rfl⟩
  intro c
  simp [List.mem_filter]

/-- C6: GET /athletes/{id}/achievements fails with NotFound (404)
when no athlete has that identifier, and otherwise returns exactly the
achievements whose athlete_id equals that identifier. -/
theorem get_athlete_achievements_spec (aid : Int) (st : DBState) :
    ApiError.notFound.status = 404 ∧
    ((∀ a ∈ st.athletes, a.id ≠ aid) →
      (get_athlete_achievements aid st).1 = Except.error ApiError.notFound) ∧
    ((∃ a ∈ st.athletes, a.id = aid) →
      ∃ l, (get_athlete_achievements aid st).1 = Except.ok l ∧
        ∀ c : Achievement, c ∈ l ↔ c ∈ st.achievements ∧ c.athlete_id = aid) := by
  refine ⟨rfl, ?_, ?_⟩
  · intro h
    simp [get_athlete_achievements, findAthlete_eq_none st aid h]
  · rintro ⟨a, ha, hid⟩
    obtain ⟨b, hb⟩ := findAthlete_isSome st aid a ha hid
    have hbid : b.id = aid := findAthlete_id st aid b hb
    refine ⟨st.achievements.filter (fun c => c.athlete_id == aid), ?_, ?_⟩
    · simp [get_athlete_achievements, hb, hbid]
    · intro c
      simp [List.mem_filter]

/-- C9 has no hypothesis; C6 needs a witness. -/
theorem get_athlete_achievements_spec_witness :
    (∀ a ∈ (⟨[⟨1, "Alice", "US"⟩], [⟨1, "Run", "9.58s", ⟨2024, 1, 1⟩, 1⟩]⟩ : DBState).athletes,
        a.id ≠ (2 : Int)) ∧
    (∃ a ∈ (⟨[⟨1, "Alice", "US"⟩], [⟨1, "Run", "9.58s", ⟨2024, 1, 1⟩, 1⟩]⟩ : DBState).athletes,
        a.id = (1 : Int)) ∧
    (get_athlete_achievements 2
        ⟨[⟨1, "Alice", "US"⟩], [⟨1, "Run", "9.58s", ⟨2024, 1, 1⟩, 1⟩]⟩).1 =
      Except.error ApiError.notFound ∧
    (∃ l, (get_athlete_achievements 1
        ⟨[⟨1, "Alice", "US"⟩], [⟨1, "Run", "9.58s", ⟨2024, 1, 1⟩, 1⟩]⟩).1 = Except.ok l ∧
      ∀ c : Achievement,
        c ∈ l ↔ c ∈ (⟨[⟨1, "Alice", "US"⟩], [⟨1, "Run", "9.58s", ⟨2024, 1, 1⟩, 1⟩]⟩ :
          DBState).achievements ∧ c.athlete_id = 1) :=
  ⟨by decide, ⟨⟨1, "Alice", "US"⟩, by decide⟩,
    (get_athlete_achievements_spec 2 _).2.1 (by decide),
    (get_athlete_achievements_spec 1 _).2.2 ⟨⟨1, "Alice", "US"⟩, by decide⟩⟩

/-- C1: deleting an athlete whose identifier is absent fails with
NotFound (404) and leaves the state unchanged; deleting a present one
returns no content, removes that athlete, and removes every
achievement whose athlete_id equals that identifier (cascade). -/
theorem delete_athlete_spec (aid : Int) (st : DBState) :
    ApiError.notFound.status = 404 ∧
    ((∀ a ∈ st.athletes, a.id ≠ aid) →
      delete_athlete aid st = (Except.error ApiError.notFound, st)) ∧
    ((∃ a ∈ st.athletes, a.id = aid) →
      delete_athlete aid st =
        (Except.ok (),
          ⟨st.athletes.filter (fun x => x.id != aid),
           st.achievements.filter (fun c => c.athlete_id != aid)⟩)) := by
  refine ⟨rfl, ?_, ?_⟩
  · intro h
    simp [delete_athlete, findAthlete_eq_none st aid h]
  · rintro ⟨a, ha, hid⟩
    obtain ⟨b, hb⟩ := findAthlete_isSome st aid a ha hid
    have hbid : b.id = aid := findAthlete_id st aid b hb
    simp [delete_athlete, hb, hbid]

/-- Witness for C1: a two-athlete, two-achievement state; deleting
athlete 1 cascades to its achievement, and deleting absent id 7 is a
NotFound no-op. -/
theorem delete_athlete_spec_witness :
    (∃ a ∈ (⟨[⟨1, "Alice", "US"⟩, ⟨2, "Bob", "FR"⟩],
        [⟨1, "Run", "9.58s", ⟨2024, 1, 1⟩, 1⟩, ⟨2, "Swim", "47s", ⟨2024, 2, 2⟩, 2⟩]⟩ :
          DBState).athletes, a.id = (1 : Int)) ∧
    delete_athlete 1
        ⟨[⟨1, "Alice", "US"⟩, ⟨2, "Bob", "FR"⟩],
         [⟨1, "Run", "9.58s", ⟨2024, 1, 1⟩, 1⟩, ⟨2, "Swim", "47s", ⟨2024, 2, 2⟩, 2⟩]⟩ =
      (Except.ok (),
        ⟨(⟨[⟨1, "Alice", "US"⟩, ⟨2, "Bob", "FR"⟩],
           [⟨1, "Run", "9.58s", ⟨2024, 1, 1⟩, 1⟩, ⟨2, "Swim", "47s", ⟨2024, 2, 2⟩, 2⟩]⟩ :
             DBState).athletes.filter (fun x => x.id != 1),
         (⟨[⟨1, "Alice", "US"⟩, ⟨2, "Bob", "FR"⟩],
           [⟨1, "Run", "9.58s", ⟨2024, 1, 1⟩, 1⟩, ⟨2, "Swim", "47s", ⟨2024, 2, 2⟩, 2⟩]⟩ :
             DBState).achievements.filter (fun c => c.athlete_id != 1)⟩) ∧
    (∀ a ∈ (⟨[⟨1, "Alice", "US"⟩], []⟩ : DBState).athletes, a.id ≠ (7 : Int)) ∧
    delete_athlete 7 ⟨[⟨1, "Alice", "US"⟩], []⟩ =
      (Except.error ApiError.notFound, ⟨[⟨1, "Alice", "US"⟩], []⟩) :=
  ⟨⟨⟨1, "Alice", "US"⟩, by decide⟩,
    (delete_athlete_spec 1 _).2.2 ⟨⟨1, "Alice", "US"⟩, by decide⟩,
    by decide,
    (delete_athlete_spec 7 _).2.1 (by decide)⟩

/-- C8: deleting an achievement fails with NotFound (404) and leaves
the state unchanged when no achievement has that identifier; otherwise
it returns no content, removes exactly that achievement, and leaves
all athletes and all other achievements unchanged. -/
theorem delete_achievement_spec (cid : Int) (st : DBState) :
    ApiError.notFound.status = 404 ∧
    ((∀ c ∈ st.achievements, c.id ≠ cid) →
      delete_achievement cid st = (Except.error ApiError.notFound, st)) ∧
    ((∃ c ∈ st.achievements, c.id = cid) →
      (delete_achievement cid st).1 = Except.ok () ∧
      (delete_achievement cid st).2.athletes = st.athletes ∧
      (∀ x : Achievement,
        x ∈ (delete_achievement cid st).2.achievements ↔
          x ∈ st.achievements ∧ x.id ≠ cid) ∧
      (st.achievements.Pairwise (fun x y => x.id ≠ y.id) →
        (delete_achievement cid st).2.achievements.length + 1 =
          st.achievements.length)) := by
  refine ⟨rfl, ?_, ?_⟩
  · intro h
    simp [delete_achievement, findAchievement_eq_none st cid h]
  · rintro ⟨c, hc, hid⟩
    obtain ⟨b, hb⟩ := findAchievement_isSome st cid c hc hid
    have hbid : b.id = cid := findAchievement_id st cid b hb
    refine ⟨by simp [delete_achievement, hb], by simp [delete_achievement, hb], ?_, ?_⟩
    · intro x
      simp [delete_achievement, hb, hbid, List.mem_filter]
    · intro hp
      have := filter_ne_id_length st.achievements cid hp c hc hid
      simpa [delete_achievement, hb, hbid] using this

/-- Witness for C8: state with two achievements and distinct ids;
deleting id 1 keeps athlete rows and the other achievement, deleting
absent id 9 is a NotFound no-op. -/
theorem delete_achievement_spec_witness :
    ((∃ c ∈ (⟨[⟨1, "Alice", "US"⟩],
        [⟨1, "Run", "9.58s", ⟨2024, 1, 1⟩, 1⟩, ⟨2, "Swim", "47s", ⟨2024, 2, 2⟩, 1⟩]⟩ :
          DBState).achievements, c.id = (1 : Int)) ∧
      (delete_achievement 1
          ⟨[⟨1, "Alice", "US"⟩],
           [⟨1, "Run", "9.58s", ⟨2024, 1, 1⟩, 1⟩, ⟨2, "Swim", "47s", ⟨2024, 2, 2⟩, 1⟩]⟩).1 =
        Except.ok () ∧
      (delete_achievement 1
          ⟨[⟨1, "Alice", "US"⟩],
           [⟨1, "Run", "9.58s", ⟨2024, 1, 1⟩, 1⟩, ⟨2, "Swim", "47s", ⟨2024, 2, 2⟩, 1⟩]⟩).2.achievements.length + 1 = 2) ∧
    ((∀ c ∈ (⟨[], [⟨1, "Run", "9.58s", ⟨2024, 1, 1⟩, 1⟩]⟩ : DBState).achievements,
        c.id ≠ (9 : Int)) ∧
      delete_achievement 9 ⟨[], [⟨1, "Run", "9.58s", ⟨2024, 1, 1⟩, 1⟩]⟩ =
        (Except.error ApiError.notFound, ⟨[], [⟨1, "Run", "9.58s", ⟨2024, 1, 1⟩, 1⟩]⟩)) := by
  have hex : ∃ c ∈ (⟨[⟨1, "Alice", "US"⟩],
      [⟨1, "Run", "9.58s", ⟨2024, 1, 1⟩, 1⟩, ⟨2, "Swim", "47s", ⟨2024, 2, 2⟩, 1⟩]⟩ :
        DBState).achievements, c.id = (1 : Int) :=
    ⟨⟨1, "Run", "9.58s", ⟨2024, 1, 1⟩, 1⟩, by decide⟩
  have h := (delete_achievement_spec 1
    ⟨[⟨1, "Alice", "US"⟩],
     [⟨1, "Run", "9.58s", ⟨2024, 1, 1⟩, 1⟩, ⟨2, "Swim", "47s", ⟨2024, 2, 2⟩, 1⟩]⟩).2.2 hex
  refine ⟨⟨hex, h.1, ?_⟩, by decide,
    (delete_achievement_spec 9 ⟨[], [⟨1, "Run", "9.58s", ⟨2024, 1, 1⟩, 1⟩]⟩).2.1 (by decide)⟩
  exact h.2.2.2 (by decide)

/-- C4: creating an athlete fails with ValidationError (422) iff name
or country is empty or longer than 100 characters; otherwise it
appends the athlete with a fresh id not carried by any existing row
and returns it; on failure the state is unchanged. -/
theorem create_athlete_spec (body : AthleteCreate) (st : DBState) :
    ApiError.validationError.status = 422 ∧
    ((create_athlete body st).1 = Except.error ApiError.validationError ↔
      (body.name.length = 0 ∨ 100 < body.name.length ∨
       body.country.length = 0 ∨ 100 < body.country.length)) ∧
    ((create_athlete body st).1 = Except.error ApiError.validationError →
      (create_athlete body st).2 = st) ∧
    (¬ (body.name.length = 0 ∨ 100 < body.name.length ∨
        body.country.length = 0 ∨ 100 < body.country.length) →
      create_athlete body st =
        (Except.ok ⟨st.nextAthleteId, body.name, body.country⟩,
          ⟨st.athletes ++ [⟨st.nextAthleteId, body.name, body.country⟩],
           st.achievements⟩) ∧
      ∀ a ∈ st.athletes, a.id ≠ st.nextAthleteId) := by
  have hiff : body.valid = true ↔
      ¬ (body.name.length = 0 ∨ 100 < body.name.length ∨
         body.country.length = 0 ∨ 100 < body.country.length) := by
    rw [athleteCreate_valid_iff]
    omega
  cases hv : body.valid with
  | true =>
    refine ⟨rfl, ?_, ?_, ?_⟩
    · simp only [create_athlete, hv, if_true]
      constructor
      · intro h
        cases h
      · intro h
        exact absurd h (hiff.mp hv)
    · intro h
      simp only [create_athlete, hv, if_true] at h
      cases h
    · intro _
      refine ⟨by simp [create_athlete, hv], ?_⟩
      intro a ha
      exact ne_of_lt (athlete_id_lt_nextAthleteId st a ha)
  | false =>
    have hbad : body.name.length = 0 ∨ 100 < body.name.length ∨
        body.country.length = 0 ∨ 100 < body.country.length := by
      by_contra hgood
      rw [hiff.mpr hgood] at hv
      cases hv
    refine ⟨rfl, ?_, ?_, ?_⟩
    · simp [create_athlete, hv, hbad]
    · intro _
      simp [create_athlete, hv]
    · intro h
      exact absurd hbad h

/-- Witness for C4: a valid body is inserted with fresh id 2; an
empty name is rejected with 422 and the state kept. -/
theorem create_athlete_spec_witness :
    (¬ (("Bob" : String).length = 0 ∨ 100 < ("Bob" : String).length ∨
        ("FR" : String).length = 0 ∨ 100 < ("FR" : String).length) ∧
      create_athlete ⟨"Bob", "FR"⟩ ⟨[⟨1, "Alice", "US"⟩], []⟩ =
        (Except.ok ⟨(⟨[⟨1, "Alice", "US"⟩], []⟩ : DBState).nextAthleteId, "Bob", "FR"⟩,
          ⟨[⟨1, "Alice", "US"⟩] ++
             [⟨(⟨[⟨1, "Alice", "US"⟩], []⟩ : DBState).nextAthleteId, "Bob", "FR"⟩], []⟩)) ∧
    ((create_athlete ⟨"", "FR"⟩ ⟨[⟨1, "Alice", "US"⟩], []⟩).1 =
        Except.error ApiError.validationError ∧
      (create_athlete ⟨"", "FR"⟩ ⟨[⟨1, "Alice", "US"⟩], []⟩).2 =
        ⟨[⟨1, "Alice", "US"⟩], []⟩) := by
  have h1 := (create_athlete_spec ⟨"Bob", "FR"⟩ ⟨[⟨1, "Alice", "US"⟩], []⟩).2.2.2 (by decide)
  have h2 := (create_athlete_spec ⟨"", "FR"⟩ ⟨[⟨1, "Alice", "US"⟩], []⟩).2.1.mpr (by decide)
  have h3 := (create_athlete_spec ⟨"", "FR"⟩ ⟨[⟨1, "Alice", "US"⟩], []⟩).2.2.1 h2
  exact ⟨⟨by decide, h1.1⟩, h2, h3⟩

/-- C7: creating a valid athlete and then listing all athletes yields
a list containing the newly created athlete exactly once. -/
theorem create_then_list_contains_once (body : AthleteCreate) (st : DBState)
    (h : body.valid = true) :
    ∃ a : Athlete,
      (create_athlete body st).1 = Except.ok a ∧
      a.name = body.name ∧ a.country = body.country ∧
      (get_athletes (create_athlete body st).2).1 =
        Except.ok ((create_athlete body st).2).athletes ∧
      ((create_athlete body st).2).athletes.count a = 1 := by
  refine ⟨⟨st.nextAthleteId, body.name, body.country⟩,
    by simp [create_athlete, h], rfl, rfl, rfl, ?_⟩
  have hsnd : (create_athlete body st).2 =
      ⟨st.athletes ++ [⟨st.nextAthleteId, body.name, body.country⟩],
       st.achievements⟩ := by
    simp [create_athlete, h]
  rw [hsnd]
  show (st.athletes ++ ([⟨st.nextAthleteId, body.name, body.country⟩] : List Athlete)).count
    (⟨st.nextAthleteId, body.name, body.country⟩ : Athlete) = 1
  rw [List.count_append]
  have hzero : st.athletes.count (⟨st.nextAthleteId, body.name, body.country⟩ : Athlete) = 0 := by
    rw [List.count_eq_zero]
    intro hmem
    have := athlete_id_lt_nextAthleteId st _ hmem
    simp at this
  rw [hzero]
  simp

/-- Witness for C7: inserting Bob into a one-athlete table lists him
exactly once. -/
theorem create_then_list_contains_once_witness :
    (⟨"Bob", "FR"⟩ : AthleteCreate).valid = true ∧
    ∃ a : Athlete,
      (create_athlete ⟨"Bob", "FR"⟩ ⟨[⟨1, "Alice", "US"⟩], []⟩).1 = Except.ok a ∧
      a.name = "Bob" ∧ a.country = "FR" ∧
      (get_athletes (create_athlete ⟨"Bob", "FR"⟩ ⟨[⟨1, "Alice", "US"⟩], []⟩).2).1 =
        Except.ok ((create_athlete ⟨"Bob", "FR"⟩ ⟨[⟨1, "Alice", "US"⟩], []⟩).2).athletes ∧
      ((create_athlete ⟨"Bob", "FR"⟩ ⟨[⟨1, "Alice", "US"⟩], []⟩).2).athletes.count a = 1 :=
  ⟨by decide,
    create_then_list_contains_once ⟨"Bob", "FR"⟩ ⟨[⟨1, "Alice", "US"⟩], []⟩ (by decide)⟩

/-- C2: referential integrity — every achievement's athlete_id is the
id of some athlete in the athletes table — holds in the initial state
and is preserved by every operation of the service, whether it
succeeds or fails. -/
theorem referential_integrity_invariant (st : DBState) (h : refIntact st = true) :
    refIntact emptyState = true ∧
    refIntact (get_athletes st).2 = true ∧
    (∀ b : AthleteCreate, refIntact (create_athlete b st).2 = true) ∧
    (∀ aid : Int, refIntact (get_athlete_achievements aid st).2 = true) ∧
    (∀ aid : Int, refIntact (delete_athlete aid st).2 = true) ∧
    (∀ o : Option Int, refIntact (get_achievements o st).2 = true) ∧
    (∀ b : AchievementCreate, refIntact (create_achievement b st).2 = true) ∧
    (∀ cid : Int, refIntact (delete_achievement cid st).2 = true) := by
  have hprop := (refIntact_iff st).mp h
  refine ⟨rfl, h, ?_, ?_, ?_, ?_, ?_, ?_⟩
  · intro b
    cases hv : b.valid with
    | true =>
      simp only [create_athlete, hv, if_true]
      rw [refIntact_iff]
      intro c hc
      obtain ⟨a, ha, hid⟩ := hprop c hc
      exact ⟨a, List.mem_append_left _ ha, hid⟩
    | false =>
      simpa [create_athlete, hv] using h
  · intro aid
    rw [get_athlete_achievements_state]
    exact h
  · intro aid
    cases hf : findAthlete st aid with
    | none => simpa [delete_athlete, hf] using h
    | some b =>
      simp only [delete_athlete, hf]
      rw [refIntact_iff]
      intro c hc
      obtain ⟨hcmem, hcne⟩ := List.mem_filter.mp hc
      obtain ⟨a, ha, hid⟩ := hprop c hcmem
      refine ⟨a, List.mem_filter.mpr ⟨ha, ?_⟩, hid⟩
      have : c.athlete_id ≠ b.id := by simpa using hcne
      simp [hid, this]
  · intro o
    rw [get_achievements_state]
    exact h
  · intro b
    cases hv : b.valid with
    | true =>
      cases hf : findAthlete st b.athlete_id with
      | none => simpa [create_achievement, hv, hf] using h
      | some a =>
        simp only [create_achievement, hv, if_true, hf]
        rw [refIntact_iff]
        intro c hc
        rcases List.mem_append.mp hc with hold | hnew
        · obtain ⟨x, hx, hid⟩ := hprop c hold
          exact ⟨x, hx, hid⟩
        · have hc' : c = ⟨st.nextAchievementId, b.sport, b.result, b.date, b.athlete_id⟩ := by
            simpa using hnew
          refine ⟨a, findAthlete_mem st b.athlete_id a hf, ?_⟩
          rw [hc', findAthlete_id st b.athlete_id a hf]
    | false =>
      simpa [create_achievement, hv] using h
  · intro cid
    cases hf : findAchievement st cid with
    | none => simpa [delete_achievement, hf] using h
    | some b =>
      simp only [delete_achievement, hf]
      rw [refIntact_iff]
      intro c hc
      exact hprop c (List.mem_filter.mp hc).1

/-- Witness for C2: a concrete state satisfying the invariant. -/
theorem referential_integrity_invariant_witness :
    refIntact ⟨[⟨1, "Alice", "US"⟩], [⟨1, "Run", "9.58s", ⟨2024, 1, 1⟩, 1⟩]⟩ = true ∧
    refIntact (delete_athlete 1
      ⟨[⟨1, "Alice", "US"⟩], [⟨1, "Run", "9.58s", ⟨2024, 1, 1⟩, 1⟩]⟩).2 = true :=
  ⟨by decide,
    (referential_integrity_invariant
        ⟨[⟨1, "Alice", "US"⟩], [⟨1, "Run", "9.58s", ⟨2024, 1, 1⟩, 1⟩]⟩
        (by decide)).2.2.2.2.1 1⟩

/-- C3 counterexample: on a state with no athletes, a body whose sport
is empty and whose athlete_id (1) matches no athlete is rejected with
ValidationError (422), not NotFound (404) — pydantic validates the
body before the handler's athlete lookup runs, so the claim's
unconditional "absent athlete_id gives NotFound" is false. -/
theorem create_achievement_notFound_precedence_cex :
    (∀ a ∈ emptyState.athletes, a.id ≠ (1 : Int)) ∧
    (create_achievement ⟨"", "9.58s", ⟨2024, 1, 1⟩, 1⟩ emptyState).1 =
      Except.error ApiError.validationError ∧
    ApiError.validationError ≠ ApiError.notFound := by
  have hv : (⟨"", "9.58s", ⟨2024, 1, 1⟩, 1⟩ : AchievementCreate).valid = false := by decide
  exact ⟨by decide, by simp [create_achievement, hv], by decide⟩

/-- C3 (amended): creating an achievement first applies body
validation — failing with ValidationError (422) when sport or result
is empty or longer than 100 characters or the date is not a calendar
date, regardless of athlete_id; when the body is valid it fails with
NotFound (404) if the referenced athlete_id matches no athlete, and
otherwise appends the achievement with a fresh id and returns it; on
either failure the state is unchanged. -/
theorem create_achievement_spec (body : AchievementCreate) (st : DBState) :
    ApiError.validationError.status = 422 ∧
    ApiError.notFound.status = 404 ∧
    (body.valid = true ↔
      (1 ≤ body.sport.length ∧ body.sport.length ≤ 100 ∧
       1 ≤ body.result.length ∧ body.result.length ≤ 100 ∧
       1 ≤ body.date.year ∧ body.date.year ≤ 9999 ∧
       1 ≤ body.date.month ∧ body.date.month ≤ 12 ∧
       1 ≤ body.date.day ∧ body.date.day ≤ daysInMonth body.date.year body.date.month)) ∧
    (body.valid = false →
      create_achievement body st = (Except.error ApiError.validationError, st)) ∧
    (body.valid = true → (∀ a ∈ st.athletes, a.id ≠ body.athlete_id) →
      create_achievement body st = (Except.error ApiError.notFound, st)) ∧
    (body.valid = true → (∃ a ∈ st.athletes, a.id = body.athlete_id) →
      create_achievement body st =
        (Except.ok ⟨st.nextAchievementId, body.sport, body.result,
            body.date, body.athlete_id⟩,
          ⟨st.athletes, st.achievements ++
            [⟨st.nextAchievementId, body.sport, body.result,
              body.date, body.athlete_id⟩]⟩) ∧
      ∀ c ∈ st.achievements, c.id ≠ st.nextAchievementId) := by
  refine ⟨rfl, rfl, achievementCreate_valid_iff body, ?_, ?_, ?_⟩
  · intro hv
    simp [create_achievement, hv]
  · intro hv habs
    simp [create_achievement, hv, findAthlete_eq_none st body.athlete_id habs]
  · rintro hv ⟨a, ha, hid⟩
    obtain ⟨b, hb⟩ := findAthlete_isSome st body.athlete_id a ha hid
    refine ⟨by simp [create_achievement, hv, hb], ?_⟩
    intro c hc
    exact ne_of_lt (achievement_id_lt_nextAchievementId st c hc)

/-- Witness for C3's amended theorem: all three branches at concrete
inputs — invalid body (422), valid body with absent athlete (404),
valid body with present athlete (insertion). -/
theorem create_achievement_spec_witness :
    ((⟨"", "9.58s", ⟨2024, 1, 1⟩, 1⟩ : AchievementCreate).valid = false ∧
      create_achievement ⟨"", "9.58s", ⟨2024, 1, 1⟩, 1⟩ ⟨[⟨1, "Alice", "US"⟩], []⟩ =
        (Except.error ApiError.validationError, ⟨[⟨1, "Alice", "US"⟩], []⟩)) ∧
    ((⟨"Run", "9.58s", ⟨2024, 1, 1⟩, 5⟩ : AchievementCreate).valid = true ∧
      create_achievement ⟨"Run", "9.58s", ⟨2024, 1, 1⟩, 5⟩ ⟨[⟨1, "Alice", "US"⟩], []⟩ =
        (Except.error ApiError.notFound, ⟨[⟨1, "Alice", "US"⟩], []⟩)) ∧
    create_achievement ⟨"Run", "9.58s", ⟨2024, 1, 1⟩, 1⟩ ⟨[⟨1, "Alice", "US"⟩], []⟩ =
      (Except.ok ⟨(⟨[⟨1, "Alice", "US"⟩], []⟩ : DBState).nextAchievementId,
          "Run", "9.58s", ⟨2024, 1, 1⟩, 1⟩,
        ⟨[⟨1, "Alice", "US"⟩],
         [] ++ [⟨(⟨[⟨1, "Alice", "US"⟩], []⟩ : DBState).nextAchievementId,
            "Run", "9.58s", ⟨2024, 1, 1⟩, 1⟩]⟩) :=
  ⟨⟨by decide,
      (create_achievement_spec ⟨"", "9.58s", ⟨2024, 1, 1⟩, 1⟩
        ⟨[⟨1, "Alice", "US"⟩], []⟩).2.2.2.1 (by decide)⟩,
    ⟨by decide,
      (create_achievement_spec ⟨"Run", "9.58s", ⟨2024, 1, 1⟩, 5⟩
        ⟨[⟨1, "Alice", "US"⟩], []⟩).2.2.2.2.1 (by decide) (by decide)⟩,
    ((create_achievement_spec ⟨"Run", "9.58s", ⟨2024, 1, 1⟩, 1⟩
        ⟨[⟨1, "Alice", "US"⟩], []⟩).2.2.2.2.2 (by decide)
      ⟨⟨1, "Alice", "US"⟩, by decide⟩).1⟩

/-- C10: under referential integrity, listing achievements filtered by
an athlete_id that matches no athlete succeeds with an empty list and
an unchanged state — it never fails with NotFound — while
GET /athletes/{id}/achievements on the same identifier does. -/
theorem get_achievements_absent_athlete (aid : Int) (st : DBState)
    (hinv : refIntact st = true) (habs : ∀ a ∈ st.athletes, a.id ≠ aid) :
    get_achievements (some aid) st = (Except.ok [], st) ∧
    (get_athlete_achievements aid st).1 = Except.error ApiError.notFound := by
  constructor
  · have hnil : st.achievements.filter (fun c => c.athlete_id == aid) = [] := by
      rw [List.filter_eq_nil_iff]
      intro c hc
      obtain ⟨a, ha, hid⟩ := (refIntact_iff st).mp hinv c hc
      simp only [beq_iff_eq]
      intro he
      exact habs a ha (by rw [hid, he])
    simp [get_achievements, hnil]
  · simp [get_athlete_achievements, findAthlete_eq_none st aid habs]

/-- Witness for C10: a state with one athlete and one achievement;
id 2 matches no athlete. -/
theorem get_achievements_absent_athlete_witness :
    refIntact ⟨[⟨1, "Alice", "US"⟩], [⟨1, "Run", "9.58s", ⟨2024, 1, 1⟩, 1⟩]⟩ = true ∧
    (∀ a ∈ (⟨[⟨1, "Alice", "US"⟩], [⟨1, "Run", "9.58s", ⟨2024, 1, 1⟩, 1⟩]⟩ :
        DBState).athletes, a.id ≠ (2 : Int)) ∧
    get_achievements (some 2)
        ⟨[⟨1, "Alice", "US"⟩], [⟨1, "Run", "9.58s", ⟨2024, 1, 1⟩, 1⟩]⟩ =
      (Except.ok [], ⟨[⟨1, "Alice", "US"⟩], [⟨1, "Run", "9.58s", ⟨2024, 1, 1⟩, 1⟩]⟩) ∧
    (get_athlete_achievements 2
        ⟨[⟨1, "Alice", "US"⟩], [⟨1, "Run", "9.58s", ⟨2024, 1, 1⟩, 1⟩]⟩).1 =
      Except.error ApiError.notFound := by
  have h := get_achievements_absent_athlete 2
    ⟨[⟨1, "Alice", "US"⟩], [⟨1, "Run", "9.58s", ⟨2024, 1, 1⟩, 1⟩]⟩
    (by decide) (by decide)
  exact ⟨by decide, by decide, h.1, h.2⟩

end AthleteService
